import Mathlib

/-! Verification of `python/lsst/sims/utils/m5_flat_sed.py` (lsst/sims_utils).

The module has two functions: `m5_scale`, which rescales a baseline
photometric calibration to arbitrary observing conditions, and
`m5_flat_sed`, which specialises `m5_scale` to a band from a hard-coded
constant table.  The embedding works over `ℝ`: `np.log10` is `Real.logb 10`,
`np.power`/`**` on floats is `Real.rpow`, the Python `int` argument `nexp`
is `ℤ`, and a dict lookup is an `Option`-valued function (`none` models the
propagated `KeyError`).  The lazily-initialised table attached to the
function object is modelled by an explicit state-passing variant. -/

namespace SimsUtils

open Real

/-- Embedding of `np.log10`. -/
noncomputable def log10 (x : ℝ) : ℝ := Real.logb 10 x

/-- Embedding of the single-exposure part of `m5_scale` (source lines
computing `Tscale`, `dCm` and the 1-exposure `m5`, before the coadd
branch).  `dCm` mirrors the source's `dCm = 0.; dCm += dCm_infinity;
dCm -= ...` sequence. -/
noncomputable def m5_scale_single (expTime airmass FWHMeff musky darkSkyMag Cm dCm_infinity kAtm tauCloud baseExpTime : ℝ) : ℝ :=
  let Tscale := expTime / baseExpTime * (10 : ℝ) ^ (-0.4 * (musky - darkSkyMag))
  let dCm := (0 : ℝ) + dCm_infinity - 1.25 * log10 (1 + ((10 : ℝ) ^ (0.8 * dCm_infinity) - 1) / Tscale)
  Cm + dCm + 0.50 * (musky - 21.0) + 2.5 * log10 (0.7 / FWHMeff) +
    1.25 * log10 (expTime / 30.0) - kAtm * (airmass - 1.0) - 1.1 * tauCloud

/-- Embedding of `m5_scale`.  The trailing `if nexp > 1` coadd branch and
the defaults `tauCloud=0`, `baseExpTime=15` mirror the source signature. -/
noncomputable def m5_scale (expTime : ℝ) (nexp : ℤ) (airmass FWHMeff musky darkSkyMag Cm dCm_infinity kAtm : ℝ) (tauCloud : optParam ℝ 0) (baseExpTime : optParam ℝ 15) : ℝ :=
  let m5 := m5_scale_single expTime airmass FWHMeff musky darkSkyMag Cm dCm_infinity kAtm tauCloud baseExpTime
  if nexp > 1 then 1.25 * log10 ((nexp : ℝ) * (10 : ℝ) ^ (0.8 * m5)) else m5

/-- The dict `m5_flat_sed.Cm` set on the first call; a lookup of a missing
key is `none` (Python `KeyError`). -/
noncomputable def m5_flat_sed_Cm (b : String) : Option ℝ :=
  if b = "u" then some 23.283 else if b = "g" then some 24.493 else
  if b = "r" then some 24.483 else if b = "i" then some 24.358 else
  if b = "z" then some 24.180 else if b = "y" then some 23.747 else none

/-- The dict `m5_flat_sed.dCm_infinity` set on the first call. -/
noncomputable def m5_flat_sed_dCm_infinity (b : String) : Option ℝ :=
  if b = "u" then some 0.414 else if b = "g" then some 0.100 else
  if b = "r" then some 0.052 else if b = "i" then some 0.038 else
  if b = "z" then some 0.026 else if b = "y" then some 0.019 else none

/-- The dict `m5_flat_sed.kAtm` set on the first call. -/
noncomputable def m5_flat_sed_kAtm (b : String) : Option ℝ :=
  if b = "u" then some 0.492 else if b = "g" then some 0.213 else
  if b = "r" then some 0.126 else if b = "i" then some 0.096 else
  if b = "z" then some 0.069 else if b = "y" then some 0.170 else none

/-- The dict `m5_flat_sed.msky` set on the first call. -/
noncomputable def m5_flat_sed_msky (b : String) : Option ℝ :=
  if b = "u" then some 22.989 else if b = "g" then some 22.256 else
  if b = "r" then some 21.196 else if b = "i" then some 20.478 else
  if b = "z" then some 19.600 else if b = "y" then some 18.612 else none

/-- The attribute `m5_flat_sed.baseExpTime` set on the first call. -/
noncomputable def m5_flat_sed_baseExpTime : ℝ := 30

/-- Embedding of the single-exposure part of `m5_flat_sed`: the four dict
lookups (in source evaluation order: `msky` inside `Tscale`, then
`dCm_infinity`, `Cm`, `kAtm`) followed by the 1-exposure formula.  If any
lookup fails the call fails (`KeyError` propagates, no formula is run). -/
noncomputable def m5_flat_sed_single (visitFilter : String) (musky FWHMeff expTime airmass tauCloud : ℝ) : Option ℝ :=
  match m5_flat_sed_msky visitFilter, m5_flat_sed_dCm_infinity visitFilter,
      m5_flat_sed_Cm visitFilter, m5_flat_sed_kAtm visitFilter with
  | some msky_b, some dCm_inf_b, some Cm_b, some kAtm_b =>
    let Tscale := expTime / m5_flat_sed_baseExpTime * (10 : ℝ) ^ (-0.4 * (musky - msky_b))
    let dCm := (0 : ℝ) + dCm_inf_b - 1.25 * log10 (1 + ((10 : ℝ) ^ (0.8 * dCm_inf_b) - 1) / Tscale)
    some (Cm_b + dCm + 0.50 * (musky - 21.0) + 2.5 * log10 (0.7 / FWHMeff) +
      1.25 * log10 (expTime / 30.0) - kAtm_b * (airmass - 1.0) - 1.1 * tauCloud)
  | _, _, _, _ => none

/-- Embedding of `m5_flat_sed`: the single-exposure value followed by the
`if nexp > 1` coadd branch; defaults `nexp=1`, `tauCloud=0` as in the
source. -/
noncomputable def m5_flat_sed (visitFilter : String) (musky FWHMeff expTime airmass : ℝ) (nexp : optParam ℤ 1) (tauCloud : optParam ℝ 0) : Option ℝ :=
  Option.map (fun m5 => if nexp > 1 then 1.25 * log10 ((nexp : ℝ) * (10 : ℝ) ^ (0.8 * m5)) else m5)
    (m5_flat_sed_single visitFilter musky FWHMeff expTime airmass tauCloud)

/-- The per-band constant tables that the source attaches to the function
object `m5_flat_sed` on its first call (attributes `baseExpTime`, `Cm`,
`dCm_infinity`, `kAtm`, `msky`). -/
structure M5Tables where
  baseExpTime : ℝ
  Cm : String → Option ℝ
  dCm_infinity : String → Option ℝ
  kAtm : String → Option ℝ
  msky : String → Option ℝ

/-- The table contents assigned by the `if not hasattr(...)` block. -/
noncomputable def m5_flat_sed_initTables : M5Tables :=
  ⟨m5_flat_sed_baseExpTime, m5_flat_sed_Cm, m5_flat_sed_dCm_infinity,
    m5_flat_sed_kAtm, m5_flat_sed_msky⟩

/-- State-passing embedding of `m5_flat_sed` making the lazily-initialised
function attributes explicit: the state is `none` before the first call
(`not hasattr(m5_flat_sed, 'Cm')`); a call installs the tables if absent,
reads all constants from the (possibly pre-existing) tables, and returns
the new state together with the result. -/
noncomputable def m5_flat_sed_stateful (st : Option M5Tables) (visitFilter : String) (musky FWHMeff expTime airmass : ℝ) (nexp : ℤ) (tauCloud : ℝ) : Option M5Tables × Option ℝ :=
  let tabs := st.getD m5_flat_sed_initTables
  let single : Option ℝ :=
    match tabs.msky visitFilter, tabs.dCm_infinity visitFilter,
        tabs.Cm visitFilter, tabs.kAtm visitFilter with
    | some msky_b, some dCm_inf_b, some Cm_b, some kAtm_b =>
      let Tscale := expTime / tabs.baseExpTime * (10 : ℝ) ^ (-0.4 * (musky - msky_b))
      let dCm := (0 : ℝ) + dCm_inf_b - 1.25 * log10 (1 + ((10 : ℝ) ^ (0.8 * dCm_inf_b) - 1) / Tscale)
      some (Cm_b + dCm + 0.50 * (musky - 21.0) + 2.5 * log10 (0.7 / FWHMeff) +
        1.25 * log10 (expTime / 30.0) - kAtm_b * (airmass - 1.0) - 1.1 * tauCloud)
    | _, _, _, _ => none
  (some tabs,
    Option.map (fun m5 => if nexp > 1 then 1.25 * log10 ((nexp : ℝ) * (10 : ℝ) ^ (0.8 * m5)) else m5) single)

/-- C1: with `nexp = 1`, `m5_scale` returns exactly the composite
single-exposure formula built from `Tscale` and `dCm`. -/
theorem C1_m5_scale_single_exposure_formula
    (expTime airmass FWHMeff musky darkSkyMag Cm dCm_infinity kAtm tauCloud baseExpTime : ℝ) :
    m5_scale expTime 1 airmass FWHMeff musky darkSkyMag Cm dCm_infinity kAtm tauCloud baseExpTime =
      Cm + (dCm_infinity - 1.25 * log10 (1 + ((10 : ℝ) ^ (0.8 * dCm_infinity) - 1) /
          (expTime / baseExpTime * (10 : ℝ) ^ (-0.4 * (musky - darkSkyMag))))) +
        0.5 * (musky - 21.0) + 2.5 * log10 (0.7 / FWHMeff) +
        1.25 * log10 (expTime / 30.0) - kAtm * (airmass - 1.0) - 1.1 * tauCloud := by
  simp only [m5_scale, m5_scale_single]
  norm_num

/-- C6: with `nexp = 1` both entry points skip the coadd branch and return
the single-exposure value unchanged; moreover the coadd formula itself is
the identity at one exposure: `1.25 * log10 (1 * 10 ^ (0.8 * x)) = x`. -/
theorem C6_nexp_one_skips_coadd :
    (∀ expTime airmass FWHMeff musky darkSkyMag Cm dCm_infinity kAtm tauCloud baseExpTime : ℝ,
        m5_scale expTime 1 airmass FWHMeff musky darkSkyMag Cm dCm_infinity kAtm tauCloud baseExpTime =
          m5_scale_single expTime airmass FWHMeff musky darkSkyMag Cm dCm_infinity kAtm tauCloud baseExpTime) ∧
    (∀ (visitFilter : String) (musky FWHMeff expTime airmass tauCloud : ℝ),
        m5_flat_sed visitFilter musky FWHMeff expTime airmass 1 tauCloud =
          m5_flat_sed_single visitFilter musky FWHMeff expTime airmass tauCloud) ∧
    (∀ x : ℝ, 1.25 * log10 ((1 : ℝ) * (10 : ℝ) ^ (0.8 * x)) = x) := by
  refine ⟨?_, ?_, ?_⟩
  · intro expTime airmass FWHMeff musky darkSkyMag Cm dCm_infinity kAtm tauCloud baseExpTime
    simp [m5_scale]
  · intro visitFilter musky FWHMeff expTime airmass tauCloud
    simp [m5_flat_sed]
  · intro x
    rw [one_mul, log10, Real.logb_rpow (by norm_num) (by norm_num)]
    ring

/-- C10: the coadd guard is strictly `nexp > 1`, so every `nexp ≤ 1` —
including `0` and negative values — skips the coadd step in both entry
points and returns the single-exposure value unchanged. -/
theorem C10_nexp_le_one_skips_coadd
    (nexp : ℤ) (h : nexp ≤ 1) (visitFilter : String)
    (expTime airmass FWHMeff musky darkSkyMag Cm dCm_infinity kAtm tauCloud baseExpTime : ℝ) :
    m5_scale expTime nexp airmass FWHMeff musky darkSkyMag Cm dCm_infinity kAtm tauCloud baseExpTime =
      m5_scale_single expTime airmass FWHMeff musky darkSkyMag Cm dCm_infinity kAtm tauCloud baseExpTime ∧
    m5_flat_sed visitFilter musky FWHMeff expTime airmass nexp tauCloud =
      m5_flat_sed_single visitFilter musky FWHMeff expTime airmass tauCloud := by
  have hn : ¬ nexp > 1 := by omega
  constructor
  · simp [m5_scale, hn]
  · simp [m5_flat_sed, hn]

/-- Witness for C10 at `nexp = 0`. -/
theorem C10_witness :
    (0 : ℤ) ≤ 1 ∧
      (m5_scale 15 0 1.2 0.8 20 21 24 0.1 0.2 0.05 30 =
          m5_scale_single 15 1.2 0.8 20 21 24 0.1 0.2 0.05 30 ∧
        m5_flat_sed "g" 20 0.8 15 1.2 0 0.05 =
          m5_flat_sed_single "g" 20 0.8 15 1.2 0.05) :=
  ⟨by decide,
    C10_nexp_le_one_skips_coadd 0 (by decide) "g" 15 1.2 0.8 20 21 24 0.1 0.2 0.05 30⟩

/-- C2: with `nexp > 1` both entry points return the flux-additive coadd
`1.25 * log10 (nexp * 10 ^ (0.8 * x))` of the single-exposure value `x`
that the same call returns with `nexp = 1`. -/
theorem C2_coadd_of_single_exposure
    (nexp : ℤ) (h : 1 < nexp) (visitFilter : String)
    (expTime airmass FWHMeff musky darkSkyMag Cm dCm_infinity kAtm tauCloud baseExpTime : ℝ) :
    m5_scale expTime nexp airmass FWHMeff musky darkSkyMag Cm dCm_infinity kAtm tauCloud baseExpTime =
      1.25 * log10 ((nexp : ℝ) * (10 : ℝ) ^ (0.8 *
        m5_scale expTime 1 airmass FWHMeff musky darkSkyMag Cm dCm_infinity kAtm tauCloud baseExpTime)) ∧
    m5_flat_sed visitFilter musky FWHMeff expTime airmass nexp tauCloud =
      Option.map (fun x => 1.25 * log10 ((nexp : ℝ) * (10 : ℝ) ^ (0.8 * x)))
        (m5_flat_sed visitFilter musky FWHMeff expTime airmass 1 tauCloud) := by
  constructor
  · simp [m5_scale, h]
  · cases hs : m5_flat_sed_single visitFilter musky FWHMeff expTime airmass tauCloud <;>
      simp [m5_flat_sed, hs, h]

/-- Witness for C2 at `nexp = 2`. -/
theorem C2_witness :
    (1 : ℤ) < 2 ∧
      (m5_scale 15 2 1.2 0.8 20 21 24 0.1 0.2 0.05 30 =
          1.25 * log10 ((2 : ℤ) * (10 : ℝ) ^ (0.8 *
            m5_scale 15 1 1.2 0.8 20 21 24 0.1 0.2 0.05 30)) ∧
        m5_flat_sed "r" 20 0.8 15 1.2 2 0.05 =
          Option.map (fun x => 1.25 * log10 ((2 : ℤ) * (10 : ℝ) ^ (0.8 * x)))
            (m5_flat_sed "r" 20 0.8 15 1.2 1 0.05)) :=
  ⟨by decide,
    C2_coadd_of_single_exposure 2 (by decide) "r" 15 1.2 0.8 20 21 24 0.1 0.2 0.05 30⟩

/-- Helper: on a band where all four dict lookups succeed, `m5_flat_sed`
is `m5_scale` applied to the looked-up constants with `baseExpTime = 30`. -/
theorem m5_flat_sed_eq_m5_scale
    (visitFilter : String) (cm dci ka mk : ℝ)
    (hCm : m5_flat_sed_Cm visitFilter = some cm)
    (hd : m5_flat_sed_dCm_infinity visitFilter = some dci)
    (hk : m5_flat_sed_kAtm visitFilter = some ka)
    (hm : m5_flat_sed_msky visitFilter = some mk)
    (musky FWHMeff expTime airmass : ℝ) (nexp : ℤ) (tauCloud : ℝ) :
    m5_flat_sed visitFilter musky FWHMeff expTime airmass nexp tauCloud =
      some (m5_scale expTime nexp airmass FWHMeff musky mk cm dci ka tauCloud 30) := by
  simp only [m5_flat_sed, m5_flat_sed_single, hCm, hd, hk, hm, m5_scale, m5_scale_single,
    m5_flat_sed_baseExpTime, Option.map_some']

/-- C3: for every band in the table, `m5_flat_sed` equals `m5_scale`
applied to that band's hard-coded constants with `baseExpTime = 30`: the
two entry points share one mathematical core. -/
theorem C3_flat_sed_refines_m5_scale
    (visitFilter : String) (cm dci ka mk : ℝ)
    (hCm : m5_flat_sed_Cm visitFilter = some cm)
    (hd : m5_flat_sed_dCm_infinity visitFilter = some dci)
    (hk : m5_flat_sed_kAtm visitFilter = some ka)
    (hm : m5_flat_sed_msky visitFilter = some mk)
    (musky FWHMeff expTime airmass : ℝ) (nexp : ℤ) (tauCloud : ℝ) :
    m5_flat_sed visitFilter musky FWHMeff expTime airmass nexp tauCloud =
      some (m5_scale expTime nexp airmass FWHMeff musky mk cm dci ka tauCloud 30) :=
  m5_flat_sed_eq_m5_scale visitFilter cm dci ka mk hCm hd hk hm
    musky FWHMeff expTime airmass nexp tauCloud

/-- Witness for C3 at the band `"r"`. -/
theorem C3_witness :
    m5_flat_sed_Cm "r" = some 24.483 ∧
    m5_flat_sed_dCm_infinity "r" = some 0.052 ∧
    m5_flat_sed_kAtm "r" = some 0.126 ∧
    m5_flat_sed_msky "r" = some 21.196 ∧
    m5_flat_sed "r" 20 0.8 15 1.2 2 0.05 =
      some (m5_scale 15 2 1.2 0.8 20 21.196 24.483 0.052 0.126 0.05 30) :=
  ⟨by rw [m5_flat_sed_Cm, if_neg (by decide), if_neg (by decide), if_pos rfl],
    by rw [m5_flat_sed_dCm_infinity, if_neg (by decide), if_neg (by decide), if_pos rfl],
    by rw [m5_flat_sed_kAtm, if_neg (by decide), if_neg (by decide), if_pos rfl],
    by rw [m5_flat_sed_msky, if_neg (by decide), if_neg (by decide), if_pos rfl],
    C3_flat_sed_refines_m5_scale "r" 24.483 0.052 0.126 21.196
      (by rw [m5_flat_sed_Cm, if_neg (by decide), if_neg (by decide), if_pos rfl])
      (by rw [m5_flat_sed_dCm_infinity, if_neg (by decide), if_neg (by decide), if_pos rfl])
      (by rw [m5_flat_sed_kAtm, if_neg (by decide), if_neg (by decide), if_pos rfl])
      (by rw [m5_flat_sed_msky, if_neg (by decide), if_neg (by decide), if_pos rfl])
      20 0.8 15 1.2 2 0.05⟩

/-- C5: the band lookup succeeds exactly on the six supported bands; for
any other identifier `m5_flat_sed` fails with the dict lookup failure
(`none`, modelling the propagated `KeyError`) rather than returning a
default value. -/
theorem C5_invalid_band_lookup_fails
    (visitFilter : String) (musky FWHMeff expTime airmass : ℝ) (nexp : ℤ) (tauCloud : ℝ) :
    (m5_flat_sed visitFilter musky FWHMeff expTime airmass nexp tauCloud).isSome = true ↔
      (visitFilter = "u" ∨ visitFilter = "g" ∨ visitFilter = "r" ∨
        visitFilter = "i" ∨ visitFilter = "z" ∨ visitFilter = "y") := by
  by_cases hu : visitFilter = "u"
  · subst hu; simp [m5_flat_sed, m5_flat_sed_single, m5_flat_sed_msky,
      m5_flat_sed_dCm_infinity, m5_flat_sed_Cm, m5_flat_sed_kAtm]
  by_cases hg : visitFilter = "g"
  · subst hg; simp [m5_flat_sed, m5_flat_sed_single, m5_flat_sed_msky,
      m5_flat_sed_dCm_infinity, m5_flat_sed_Cm, m5_flat_sed_kAtm]
  by_cases hr : visitFilter = "r"
  · subst hr; simp [m5_flat_sed, m5_flat_sed_single, m5_flat_sed_msky,
      m5_flat_sed_dCm_infinity, m5_flat_sed_Cm, m5_flat_sed_kAtm]
  by_cases hi : visitFilter = "i"
  · subst hi; simp [m5_flat_sed, m5_flat_sed_single, m5_flat_sed_msky,
      m5_flat_sed_dCm_infinity, m5_flat_sed_Cm, m5_flat_sed_kAtm]
  by_cases hz : visitFilter = "z"
  · subst hz; simp [m5_flat_sed, m5_flat_sed_single, m5_flat_sed_msky,
      m5_flat_sed_dCm_infinity, m5_flat_sed_Cm, m5_flat_sed_kAtm]
  by_cases hy : visitFilter = "y"
  · subst hy; simp [m5_flat_sed, m5_flat_sed_single, m5_flat_sed_msky,
      m5_flat_sed_dCm_infinity, m5_flat_sed_Cm, m5_flat_sed_kAtm]
  simp [m5_flat_sed, m5_flat_sed_single, m5_flat_sed_msky,
    m5_flat_sed_dCm_infinity, m5_flat_sed_Cm, m5_flat_sed_kAtm,
    hu, hg, hr, hi, hz, hy]

/-- C9: the constant table is installed exactly once, on the first call
(state `none` becomes `some m5_flat_sed_initTables`), a call on an already
initialised state leaves the state untouched, and every call's result —
first or subsequent, any band — is the pure function of its own arguments. -/
theorem C9_table_initialized_once_never_mutated
    (st : M5Tables) (visitFilter visitFilter2 : String)
    (musky FWHMeff expTime airmass tauCloud musky2 FWHMeff2 expTime2 airmass2 tauCloud2 : ℝ)
    (nexp nexp2 : ℤ) :
    (m5_flat_sed_stateful none visitFilter musky FWHMeff expTime airmass nexp tauCloud).1 =
        some m5_flat_sed_initTables ∧
    (m5_flat_sed_stateful (some st) visitFilter musky FWHMeff expTime airmass nexp tauCloud).1 =
        some st ∧
    (m5_flat_sed_stateful none visitFilter musky FWHMeff expTime airmass nexp tauCloud).2 =
        m5_flat_sed visitFilter musky FWHMeff expTime airmass nexp tauCloud ∧
    (m5_flat_sed_stateful
        (m5_flat_sed_stateful none visitFilter musky FWHMeff expTime airmass nexp tauCloud).1
        visitFilter2 musky2 FWHMeff2 expTime2 airmass2 nexp2 tauCloud2).2 =
      m5_flat_sed visitFilter2 musky2 FWHMeff2 expTime2 airmass2 nexp2 tauCloud2 :=
  ⟨rfl, rfl, rfl, rfl⟩

/-- Helper: at `expTime = baseExpTime` and `musky = darkSkyMag` the scale
factor `Tscale` is 1 and the read-noise correction `dCm` vanishes. -/
theorem m5_scale_single_at_base
    (airmass FWHMeff musky Cm dCm_infinity kAtm tauCloud baseExpTime : ℝ)
    (hbT : baseExpTime ≠ 0) :
    m5_scale_single baseExpTime airmass FWHMeff musky musky Cm dCm_infinity kAtm tauCloud baseExpTime =
      Cm + 0.50 * (musky - 21.0) + 2.5 * log10 (0.7 / FWHMeff) +
        1.25 * log10 (baseExpTime / 30.0) - kAtm * (airmass - 1.0) - 1.1 * tauCloud := by
  simp only [m5_scale_single]
  have h0 : (-0.4 : ℝ) * (musky - musky) = 0 := by ring
  rw [h0, Real.rpow_zero, mul_one, div_self hbT]
  have h1 : (1 : ℝ) + ((10 : ℝ) ^ (0.8 * dCm_infinity) - 1) / 1 = (10 : ℝ) ^ (0.8 * dCm_infinity) := by
    ring
  rw [h1]
  simp only [log10]
  rw [Real.logb_rpow (by norm_num) (by norm_num)]
  ring

/-- Helper: the value of `m5_scale` at the r-band reference conditions with
`baseExpTime = 30` is exactly 24.581. -/
theorem m5_scale_r_reference_value :
    m5_scale 30 1 1 0.7 21.196 21.196 24.483 0.052 0.126 0 30 = 24.581 := by
  have hskip : m5_scale 30 1 1 0.7 21.196 21.196 24.483 0.052 0.126 0 30 =
      m5_scale_single 30 1 0.7 21.196 21.196 24.483 0.052 0.126 0 30 := by
    simp [m5_scale]
  rw [hskip, m5_scale_single_at_base 1 0.7 21.196 24.483 0.052 0.126 0 30 (by norm_num)]
  have e1 : (0.7 : ℝ) / 0.7 = 1 := by norm_num
  have e2 : (30 : ℝ) / 30.0 = 1 := by norm_num
  rw [e1, e2]
  simp only [log10, Real.logb_one]
  norm_num

/-- Helper: the r-band reference scenario of `m5_flat_sed` evaluates to
exactly 24.581. -/
theorem m5_flat_sed_r_reference : m5_flat_sed "r" 21.196 0.7 30 1 1 0 = some 24.581 := by
  rw [m5_flat_sed_eq_m5_scale "r" 24.483 0.052 0.126 21.196
    (by rw [m5_flat_sed_Cm, if_neg (by decide), if_neg (by decide), if_pos rfl])
    (by rw [m5_flat_sed_dCm_infinity, if_neg (by decide), if_neg (by decide), if_pos rfl])
    (by rw [m5_flat_sed_kAtm, if_neg (by decide), if_neg (by decide), if_pos rfl])
    (by rw [m5_flat_sed_msky, if_neg (by decide), if_neg (by decide), if_pos rfl])
    21.196 0.7 30 1 1 0]
  rw [m5_scale_r_reference_value]

/-- C7: the concrete r-band reference scenario equals
`Cm[r] + dCm_infinity[r] + 0.5*(21.196 - 21.0)` minus the `Tscale`-derived
`dCm` adjustment (here with `Tscale = 1`); the agreement is exact (value
24.581), hence well within the 1e-6 tolerance. -/
theorem C7_r_band_reference_scenario :
    m5_flat_sed "r" 21.196 0.7 30 1 1 0 =
      some (24.483 + 0.052 + 0.5 * (21.196 - 21.0) -
        1.25 * log10 (1 + ((10 : ℝ) ^ (0.8 * (0.052 : ℝ)) - 1) / 1)) ∧
    (24.483 : ℝ) + 0.052 + 0.5 * (21.196 - 21.0) -
        1.25 * log10 (1 + ((10 : ℝ) ^ (0.8 * (0.052 : ℝ)) - 1) / 1) = 24.581 := by
  have hexpr : (24.483 : ℝ) + 0.052 + 0.5 * (21.196 - 21.0) -
      1.25 * log10 (1 + ((10 : ℝ) ^ (0.8 * (0.052 : ℝ)) - 1) / 1) = 24.581 := by
    have h1 : (1 : ℝ) + ((10 : ℝ) ^ (0.8 * (0.052 : ℝ)) - 1) / 1 =
        (10 : ℝ) ^ (0.8 * (0.052 : ℝ)) := by ring
    rw [h1]
    simp only [log10]
    rw [Real.logb_rpow (by norm_num) (by norm_num)]
    norm_num
  exact ⟨by rw [m5_flat_sed_r_reference, hexpr], hexpr⟩

/-- Helper: with the default `baseExpTime = 15`, `m5_scale` at the r-band
reference conditions exceeds the `baseExpTime = 30` value 24.581 (the
read-noise correction no longer cancels). -/
theorem m5_scale_default_r_gt :
    24.581 < m5_scale 30 1 1 0.7 21.196 21.196 24.483 0.052 0.126 0 := by
  have hskip : m5_scale 30 1 1 0.7 21.196 21.196 24.483 0.052 0.126 0 =
      m5_scale_single 30 1 0.7 21.196 21.196 24.483 0.052 0.126 0 15 := by
    simp [m5_scale]
  rw [hskip]
  simp only [m5_scale_single, log10]
  have h0 : (-0.4 : ℝ) * ((21.196 : ℝ) - 21.196) = 0 := by ring
  rw [h0, Real.rpow_zero, mul_one]
  have hc : (1 : ℝ) < (10 : ℝ) ^ ((0.8 : ℝ) * 0.052) :=
    (Real.one_lt_rpow_iff_of_pos (by norm_num)).mpr (Or.inl ⟨by norm_num, by norm_num⟩)
  have hlt : Real.logb 10 (1 + ((10 : ℝ) ^ ((0.8 : ℝ) * 0.052) - 1) / (30 / 15)) <
      Real.logb 10 ((10 : ℝ) ^ ((0.8 : ℝ) * 0.052)) := by
    apply Real.logb_lt_logb (by norm_num) (by nlinarith) (by nlinarith)
  rw [Real.logb_rpow (by norm_num) (by norm_num)] at hlt
  have e1 : Real.logb 10 ((0.7 : ℝ) / 0.7) = 0 := by
    rw [show ((0.7 : ℝ) / 0.7) = 1 by norm_num, Real.logb_one]
  have e2 : Real.logb 10 ((30 : ℝ) / 30.0) = 0 := by
    rw [show ((30 : ℝ) / 30.0) = 1 by norm_num, Real.logb_one]
  rw [e1, e2]
  nlinarith [hlt]

/-- C8: `m5_scale` defaults `baseExpTime` to 15 while `m5_flat_sed` uses
the hard-coded 30; with the default, `m5_scale` at the r-band constants and
reference conditions disagrees with `m5_flat_sed`, and passing
`baseExpTime = 30` explicitly restores agreement. -/
theorem C8_distinct_baseExpTime_defaults :
    (∀ (expTime : ℝ) (nexp : ℤ) (airmass FWHMeff musky darkSkyMag Cm dCm_infinity kAtm tauCloud : ℝ),
        m5_scale expTime nexp airmass FWHMeff musky darkSkyMag Cm dCm_infinity kAtm tauCloud =
          m5_scale expTime nexp airmass FWHMeff musky darkSkyMag Cm dCm_infinity kAtm tauCloud 15) ∧
    m5_flat_sed_baseExpTime = 30 ∧
    m5_flat_sed "r" 21.196 0.7 30 1 1 0 = some 24.581 ∧
    m5_scale 30 1 1 0.7 21.196 21.196 24.483 0.052 0.126 0 30 = 24.581 ∧
    m5_scale 30 1 1 0.7 21.196 21.196 24.483 0.052 0.126 0 ≠ 24.581 :=
  ⟨fun _ _ _ _ _ _ _ _ _ _ => rfl, rfl, m5_flat_sed_r_reference,
    m5_scale_r_reference_value, m5_scale_default_r_gt.ne'⟩

/-- Helper: the coadd branch is monotone in the single-exposure m5. -/
theorem coadd_mono (n : ℤ) {x y : ℝ} (h : x ≤ y) :
    (if n > 1 then 1.25 * log10 ((n : ℝ) * (10 : ℝ) ^ (0.8 * x)) else x) ≤
      (if n > 1 then 1.25 * log10 ((n : ℝ) * (10 : ℝ) ^ (0.8 * y)) else y) := by
  by_cases hn : n > 1
  · simp only [if_pos hn]
    have hnR : (0 : ℝ) < (n : ℝ) := by exact_mod_cast (by omega : (0 : ℤ) < n)
    have hx : (0 : ℝ) < (n : ℝ) * (10 : ℝ) ^ (0.8 * x) :=
      mul_pos hnR (Real.rpow_pos_of_pos (by norm_num) _)
    have hle : (n : ℝ) * (10 : ℝ) ^ (0.8 * x) ≤ (n : ℝ) * (10 : ℝ) ^ (0.8 * y) := by
      refine mul_le_mul_of_nonneg_left ?_ hnR.le
      exact (Real.rpow_le_rpow_left_iff (by norm_num)).mpr (by linarith)
    have hlog := Real.logb_le_logb_of_le (by norm_num : (1 : ℝ) < 10) hx hle
    simp only [log10]
    linarith
  · simp only [if_neg hn]; exact h

/-- Helper: ordering of single-exposure values is preserved by `m5_scale`
for any shared `nexp`. -/
theorem m5_scale_mono_in_single (nexp : ℤ)
    (e1 a1 F1 m1 d1 c1 dc1 k1 t1 b1 e2 a2 F2 m2 d2 c2 dc2 k2 t2 b2 : ℝ)
    (h : m5_scale_single e1 a1 F1 m1 d1 c1 dc1 k1 t1 b1 ≤
      m5_scale_single e2 a2 F2 m2 d2 c2 dc2 k2 t2 b2) :
    m5_scale e1 nexp a1 F1 m1 d1 c1 dc1 k1 t1 b1 ≤
      m5_scale e2 nexp a2 F2 m2 d2 c2 dc2 k2 t2 b2 := by
  simp only [m5_scale]
  exact coadd_mono nexp h

/-- Helper: the single-exposure m5 is nondecreasing in `expTime` when
`dCm_infinity` is nonnegative. -/
theorem m5_scale_single_mono_expTime
    (airmass FWHMeff musky darkSkyMag Cm dCm_infinity kAtm tauCloud baseExpTime e1 e2 : ℝ)
    (he1 : 0 < e1) (h12 : e1 ≤ e2) (hbT : 0 < baseExpTime) (hdc : 0 ≤ dCm_infinity) :
    m5_scale_single e1 airmass FWHMeff musky darkSkyMag Cm dCm_infinity kAtm tauCloud baseExpTime ≤
      m5_scale_single e2 airmass FWHMeff musky darkSkyMag Cm dCm_infinity kAtm tauCloud baseExpTime := by
  have he2 : 0 < e2 := lt_of_lt_of_le he1 h12
  simp only [m5_scale_single, log10]
  set K : ℝ := (10 : ℝ) ^ (-0.4 * (musky - darkSkyMag)) with hKdef
  have hK : 0 < K := by rw [hKdef]; exact Real.rpow_pos_of_pos (by norm_num) _
  set c : ℝ := (10 : ℝ) ^ (0.8 * dCm_infinity) - 1 with hcdef
  have hc : 0 ≤ c := by
    have h10 : (10 : ℝ) ^ (0 : ℝ) ≤ (10 : ℝ) ^ (0.8 * dCm_infinity) :=
      (Real.rpow_le_rpow_left_iff (by norm_num)).mpr (by linarith)
    rw [Real.rpow_zero] at h10
    rw [hcdef]
    linarith
  have hT1 : 0 < e1 / baseExpTime * K := by positivity
  have hT2 : 0 < e2 / baseExpTime * K := by positivity
  have hQ1 : 0 ≤ c / (e1 / baseExpTime * K) := div_nonneg hc hT1.le
  have hQ2 : 0 ≤ c / (e2 / baseExpTime * K) := div_nonneg hc hT2.le
  have hP1 : 0 < 1 + c / (e1 / baseExpTime * K) := by linarith
  have hP2 : 0 < 1 + c / (e2 / baseExpTime * K) := by linarith
  have key : e1 / 30.0 / (1 + c / (e1 / baseExpTime * K)) ≤
      e2 / 30.0 / (1 + c / (e2 / baseExpTime * K)) := by
    rw [div_le_div_iff₀ hP1 hP2]
    have lhs_eq : e1 / 30.0 * (1 + c / (e2 / baseExpTime * K)) =
        (e1 * (e2 * K + c * baseExpTime)) / (30 * (e2 * K)) := by
      field_simp
      ring
    have rhs_eq : e2 / 30.0 * (1 + c / (e1 / baseExpTime * K)) =
        (e2 * (e1 * K + c * baseExpTime)) / (30 * (e1 * K)) := by
      field_simp
      ring
    rw [lhs_eq, rhs_eq, div_le_div_iff₀ (by positivity) (by positivity)]
    have hsq : e1 * e1 ≤ e2 * e2 := mul_self_le_mul_self he1.le h12
    have hee : e1 * (e1 * e2) ≤ e2 * (e1 * e2) :=
      mul_le_mul_of_nonneg_right h12 (by positivity)
    nlinarith [mul_le_mul_of_nonneg_left hsq (mul_nonneg (mul_nonneg hc hbT.le) hK.le),
      mul_le_mul_of_nonneg_left hee (mul_nonneg hK.le hK.le)]
  have hL : Real.logb 10 (e1 / 30.0) - Real.logb 10 (1 + c / (e1 / baseExpTime * K)) ≤
      Real.logb 10 (e2 / 30.0) - Real.logb 10 (1 + c / (e2 / baseExpTime * K)) := by
    rw [← Real.logb_div (by positivity) (ne_of_gt hP1),
      ← Real.logb_div (by positivity) (ne_of_gt hP2)]
    exact Real.logb_le_logb_of_le (by norm_num) (by positivity) key
  linarith

/-- Helper: the single-exposure m5 is nonincreasing in `airmass` when
`kAtm` is nonnegative. -/
theorem m5_scale_single_anti_airmass
    (expTime FWHMeff musky darkSkyMag Cm dCm_infinity kAtm tauCloud baseExpTime a1 a2 : ℝ)
    (hk : 0 ≤ kAtm) (h12 : a1 ≤ a2) :
    m5_scale_single expTime a2 FWHMeff musky darkSkyMag Cm dCm_infinity kAtm tauCloud baseExpTime ≤
      m5_scale_single expTime a1 FWHMeff musky darkSkyMag Cm dCm_infinity kAtm tauCloud baseExpTime := by
  simp only [m5_scale_single]
  have := mul_le_mul_of_nonneg_left (show a1 - 1.0 ≤ a2 - 1.0 by linarith) hk
  linarith

/-- Helper: the single-exposure m5 is nonincreasing in `tauCloud`. -/
theorem m5_scale_single_anti_tauCloud
    (expTime airmass FWHMeff musky darkSkyMag Cm dCm_infinity kAtm baseExpTime t1 t2 : ℝ)
    (h12 : t1 ≤ t2) :
    m5_scale_single expTime airmass FWHMeff musky darkSkyMag Cm dCm_infinity kAtm t2 baseExpTime ≤
      m5_scale_single expTime airmass FWHMeff musky darkSkyMag Cm dCm_infinity kAtm t1 baseExpTime := by
  simp only [m5_scale_single]
  linarith

/-- Helper: the single-exposure m5 is nonincreasing in `FWHMeff` on
positive seeing values. -/
theorem m5_scale_single_anti_FWHMeff
    (expTime airmass musky darkSkyMag Cm dCm_infinity kAtm tauCloud baseExpTime F1 F2 : ℝ)
    (hF1 : 0 < F1) (h12 : F1 ≤ F2) :
    m5_scale_single expTime airmass F2 musky darkSkyMag Cm dCm_infinity kAtm tauCloud baseExpTime ≤
      m5_scale_single expTime airmass F1 musky darkSkyMag Cm dCm_infinity kAtm tauCloud baseExpTime := by
  have hF2 : 0 < F2 := lt_of_lt_of_le hF1 h12
  simp only [m5_scale_single, log10]
  have hdiv : (0.7 : ℝ) / F2 ≤ 0.7 / F1 :=
    (div_le_div_iff_of_pos_left (by norm_num) hF2 hF1).mpr h12
  have hlog := Real.logb_le_logb_of_le (by norm_num : (1 : ℝ) < 10) (by positivity) hdiv
  linarith

/-- C4 (amended): monotonicity of `m5_scale` with all other inputs fixed.
Increasing `expTime` does not decrease m5 under `expTime > 0`,
`baseExpTime > 0` and — additionally to the claim as stated — a
nonnegative `dCm_infinity` (the counterexample shows the claim fails for
negative `dCm_infinity`); increasing `airmass` (with `kAtm ≥ 0`),
`tauCloud`, or `FWHMeff` (with `FWHMeff > 0`) does not increase m5. -/
theorem C4_monotonicity_amended
    (nexp : ℤ) (airmass FWHMeff musky darkSkyMag Cm dCm_infinity kAtm tauCloud baseExpTime : ℝ) :
    (∀ e1 e2 : ℝ, 0 < e1 → e1 ≤ e2 → 0 < baseExpTime → 0 ≤ dCm_infinity →
        m5_scale e1 nexp airmass FWHMeff musky darkSkyMag Cm dCm_infinity kAtm tauCloud baseExpTime ≤
          m5_scale e2 nexp airmass FWHMeff musky darkSkyMag Cm dCm_infinity kAtm tauCloud baseExpTime) ∧
    (∀ expTime a1 a2 : ℝ, 0 ≤ kAtm → a1 ≤ a2 →
        m5_scale expTime nexp a2 FWHMeff musky darkSkyMag Cm dCm_infinity kAtm tauCloud baseExpTime ≤
          m5_scale expTime nexp a1 FWHMeff musky darkSkyMag Cm dCm_infinity kAtm tauCloud baseExpTime) ∧
    (∀ expTime t1 t2 : ℝ, t1 ≤ t2 →
        m5_scale expTime nexp airmass FWHMeff musky darkSkyMag Cm dCm_infinity kAtm t2 baseExpTime ≤
          m5_scale expTime nexp airmass FWHMeff musky darkSkyMag Cm dCm_infinity kAtm t1 baseExpTime) ∧
    (∀ expTime F1 F2 : ℝ, 0 < F1 → F1 ≤ F2 →
        m5_scale expTime nexp airmass F2 musky darkSkyMag Cm dCm_infinity kAtm tauCloud baseExpTime ≤
          m5_scale expTime nexp airmass F1 musky darkSkyMag Cm dCm_infinity kAtm tauCloud baseExpTime) := by
  refine ⟨?_, ?_, ?_, ?_⟩
  · intro e1 e2 he1 h12 hbT hdc
    exact m5_scale_mono_in_single nexp _ _ _ _ _ _ _ _ _ _ _ _ _ _ _ _ _ _ _ _
      (m5_scale_single_mono_expTime airmass FWHMeff musky darkSkyMag Cm dCm_infinity kAtm
        tauCloud baseExpTime e1 e2 he1 h12 hbT hdc)
  · intro expTime a1 a2 hk h12
    exact m5_scale_mono_in_single nexp _ _ _ _ _ _ _ _ _ _ _ _ _ _ _ _ _ _ _ _
      (m5_scale_single_anti_airmass expTime FWHMeff musky darkSkyMag Cm dCm_infinity kAtm
        tauCloud baseExpTime a1 a2 hk h12)
  · intro expTime t1 t2 h12
    exact m5_scale_mono_in_single nexp _ _ _ _ _ _ _ _ _ _ _ _ _ _ _ _ _ _ _ _
      (m5_scale_single_anti_tauCloud expTime airmass FWHMeff musky darkSkyMag Cm dCm_infinity
        kAtm baseExpTime t1 t2 h12)
  · intro expTime F1 F2 hF1 h12
    exact m5_scale_mono_in_single nexp _ _ _ _ _ _ _ _ _ _ _ _ _ _ _ _ _ _ _ _
      (m5_scale_single_anti_FWHMeff expTime airmass musky darkSkyMag Cm dCm_infinity kAtm
        tauCloud baseExpTime F1 F2 hF1 h12)

/-- Witness for the amended C4 at concrete inputs, one instance per
monotonicity clause. -/
theorem C4_witness :
    ((0 : ℝ) < 15 ∧ (15 : ℝ) ≤ 30 ∧ (0 : ℝ) < 30 ∧ (0 : ℝ) ≤ 0.1 ∧
      m5_scale 15 2 1.2 0.8 20 21 24 0.1 0.2 0.05 30 ≤
        m5_scale 30 2 1.2 0.8 20 21 24 0.1 0.2 0.05 30) ∧
    ((0 : ℝ) ≤ 0.2 ∧ (1 : ℝ) ≤ 1.5 ∧
      m5_scale 15 2 1.5 0.8 20 21 24 0.1 0.2 0.05 30 ≤
        m5_scale 15 2 1 0.8 20 21 24 0.1 0.2 0.05 30) ∧
    ((0 : ℝ) ≤ 0.3 ∧
      m5_scale 15 2 1.2 0.8 20 21 24 0.1 0.2 0.3 30 ≤
        m5_scale 15 2 1.2 0.8 20 21 24 0.1 0.2 0 30) ∧
    ((0 : ℝ) < 0.8 ∧ (0.8 : ℝ) ≤ 1 ∧
      m5_scale 15 2 1.2 1 20 21 24 0.1 0.2 0.05 30 ≤
        m5_scale 15 2 1.2 0.8 20 21 24 0.1 0.2 0.05 30) :=
  ⟨⟨by norm_num, by norm_num, by norm_num, by norm_num,
      (C4_monotonicity_amended 2 1.2 0.8 20 21 24 0.1 0.2 0.05 30).1 15 30
        (by norm_num) (by norm_num) (by norm_num) (by norm_num)⟩,
    ⟨by norm_num, by norm_num,
      (C4_monotonicity_amended 2 1.2 0.8 20 21 24 0.1 0.2 0.05 30).2.1 15 1 1.5
        (by norm_num) (by norm_num)⟩,
    ⟨by norm_num,
      (C4_monotonicity_amended 2 1.2 0.8 20 21 24 0.1 0.2 0.05 30).2.2.1 15 0 0.3
        (by norm_num)⟩,
    ⟨by norm_num, by norm_num,
      (C4_monotonicity_amended 2 1.2 0.8 20 21 24 0.1 0.2 0.05 30).2.2.2 15 0.8 1
        (by norm_num) (by norm_num)⟩⟩

/-- Helper: the counterexample configuration at `expTime = 1`. -/
theorem counterexample_value_at_one :
    m5_scale 1 1 1 0.7 21 21 0 (-2.5) 0 0 1 = -(1.25 * Real.logb 10 30) := by
  have hskip : m5_scale 1 1 1 0.7 21 21 0 (-2.5) 0 0 1 =
      m5_scale_single 1 1 0.7 21 21 0 (-2.5) 0 0 1 := by simp [m5_scale]
  rw [hskip]
  simp only [m5_scale_single, log10]
  have hpow : (10 : ℝ) ^ ((0.8 : ℝ) * -2.5) = 1 / 100 := by
    rw [show ((0.8 : ℝ) * -2.5) = ((-2 : ℤ) : ℝ) by norm_num, Real.rpow_intCast]
    norm_num
  have hexp : (-0.4 : ℝ) * ((21 : ℝ) - 21) = 0 := by norm_num
  rw [hpow, hexp, Real.rpow_zero]
  have harg : (1 : ℝ) + ((1 : ℝ) / 100 - 1) / ((1 : ℝ) / 1 * 1) = 1 / 100 := by norm_num
  rw [harg]
  have hlog100 : Real.logb 10 ((1 : ℝ) / 100) = -2 := by
    rw [show ((1 : ℝ) / 100) = (10 : ℝ) ^ ((-2 : ℤ) : ℝ) by rw [Real.rpow_intCast]; norm_num]
    rw [Real.logb_rpow (by norm_num) (by norm_num)]
    norm_num
  rw [hlog100]
  have h07 : Real.logb 10 ((0.7 : ℝ) / 0.7) = 0 := by
    rw [show ((0.7 : ℝ) / 0.7) = 1 by norm_num, Real.logb_one]
  have h130 : Real.logb 10 ((1 : ℝ) / 30.0) = -Real.logb 10 30 := by
    rw [show ((1 : ℝ) / 30.0) = ((30 : ℝ))⁻¹ by norm_num, Real.logb_inv]
  rw [h07, h130]
  ring

/-- Helper: the counterexample configuration at `expTime = 1.1`. -/
theorem counterexample_value_at_one_point_one :
    m5_scale 1.1 1 1 0.7 21 21 0 (-2.5) 0 0 1 =
      -1.25 + 1.25 * (Real.logb 10 11 - (1 + Real.logb 10 30)) := by
  have hskip : m5_scale 1.1 1 1 0.7 21 21 0 (-2.5) 0 0 1 =
      m5_scale_single 1.1 1 0.7 21 21 0 (-2.5) 0 0 1 := by simp [m5_scale]
  rw [hskip]
  simp only [m5_scale_single, log10]
  have hpow : (10 : ℝ) ^ ((0.8 : ℝ) * -2.5) = 1 / 100 := by
    rw [show ((0.8 : ℝ) * -2.5) = ((-2 : ℤ) : ℝ) by norm_num, Real.rpow_intCast]
    norm_num
  have hexp : (-0.4 : ℝ) * ((21 : ℝ) - 21) = 0 := by norm_num
  rw [hpow, hexp, Real.rpow_zero]
  have harg : (1 : ℝ) + ((1 : ℝ) / 100 - 1) / ((1.1 : ℝ) / 1 * 1) = 1 / 10 := by norm_num
  rw [harg]
  have hlog10 : Real.logb 10 ((1 : ℝ) / 10) = -1 := by
    rw [show ((1 : ℝ) / 10) = (10 : ℝ) ^ ((-1 : ℤ) : ℝ) by rw [Real.rpow_intCast]; norm_num]
    rw [Real.logb_rpow (by norm_num) (by norm_num)]
    norm_num
  rw [hlog10]
  have h07 : Real.logb 10 ((0.7 : ℝ) / 0.7) = 0 := by
    rw [show ((0.7 : ℝ) / 0.7) = 1 by norm_num, Real.logb_one]
  have ht : Real.logb 10 ((1.1 : ℝ) / 30.0) = Real.logb 10 11 - (1 + Real.logb 10 30) := by
    rw [show ((1.1 : ℝ) / 30.0) = 11 / 300 by norm_num]
    rw [Real.logb_div (by norm_num) (by norm_num)]
    rw [show ((300 : ℝ)) = 10 * 30 by norm_num]
    rw [Real.logb_mul (by norm_num) (by norm_num)]
    rw [Real.logb_self_eq_one (by norm_num)]
  rw [h07, ht]
  ring

/-- C4 counterexample: with `dCm_infinity = -2.5`, increasing `expTime`
from 1 s to 1.1 s strictly decreases the returned m5 although every
precondition stated in the claim holds (`expTime > 0`, `baseExpTime = 1 >
0`, `FWHMeff = 0.7 > 0`, `kAtm = 0 ≥ 0`) — the expTime clause of the claim
is false as stated. -/
theorem C4_counterexample :
    (0 : ℝ) < 1 ∧ (1 : ℝ) ≤ 1.1 ∧ (0 : ℝ) < 1 ∧ (0 : ℝ) < 0.7 ∧ (0 : ℝ) ≤ 0 ∧
      m5_scale 1.1 1 1 0.7 21 21 0 (-2.5) 0 0 1 <
        m5_scale 1 1 1 0.7 21 21 0 (-2.5) 0 0 1 := by
  refine ⟨by norm_num, by norm_num, by norm_num, by norm_num, le_refl 0, ?_⟩
  rw [counterexample_value_at_one, counterexample_value_at_one_point_one]
  have h11 : Real.logb 10 11 < 2 := by
    rw [Real.logb_lt_iff_lt_rpow (by norm_num) (by norm_num)]
    rw [show ((2 : ℝ)) = ((2 : ℕ) : ℝ) by norm_num, Real.rpow_natCast]
    norm_num
  linarith

end SimsUtils
